import Mathlib

/-!
Verification development for the IPPcode23 interpreter (src/src/interpret.py).

The Python source is shallowly embedded here: each handler of the
Operations dispatch table becomes a Lean function over an explicit
interpreter state, Python exceptions and calls to error(code) become an
Except monad, Python strings become Lean String (or List Char for the
escape decoder), Python ints become Int, and the (value, type) tuples the
source stores in frames become pairs of a tagged value and an optional
type string.
-/

namespace Interp

/-- Python exception kinds that the source can raise and leave uncaught
(an uncaught exception aborts the process with a traceback). -/
inductive PyExc
  | keyError
  | typeError
  | valueError
  | indexError
  | nameError
  | attributeError
  | zeroDivisionError
deriving DecidableEq, Repr

/-- How a run of a handler can abort: either a deliberate exit through
error(code) / exit(code) / sys.exit(code), or an uncaught Python
exception. -/
inductive Halt
  | exit (code : Int)
  | exc (e : PyExc)
deriving DecidableEq, Repr

/-- A Python runtime value as the source stores it in the first slot of
its (value, type) tuples: a str, an int (from math_ops results), a bool
(from relational and logical results), or None (from DEFVAR). -/
inductive PyVal
  | str (s : String)
  | int (n : Int)
  | bool (b : Bool)
  | none
deriving DecidableEq, Repr

/-- The (value, type) tuple of the source.  The second slot is the type
tag string, or Python None for an uninitialized variable. -/
abbrev Tup := PyVal × Option String

/-- A frame: a Python dict from variable name to tuple, embedded as an
association list with unique keys and overwrite-on-update. -/
abbrev Frame := List (String × Tup)

def fLookup : Frame → String → Option Tup
  | [], _ => Option.none
  | (k, v) :: rest, n => if k = n then some v else fLookup rest n

def fMem (f : Frame) (n : String) : Bool := (fLookup f n).isSome

def fSet : Frame → String → Tup → Frame
  | [], n, v => [(n, v)]
  | (k, w) :: rest, n, v => if k = n then (n, v) :: rest else (k, w) :: fSet rest n v

/-- Python whitespace as stripped by int(): space, tab, newline, carriage
return, vertical tab, form feed. -/
def isPySpace (c : Char) : Bool :=
  (c = ' ') || (c = '\t') || (c = '\n') || (c = '\r') || (c.toNat = 11) || (c.toNat = 12)

def digitVal (c : Char) : Nat := c.toNat - 48

/-- Value of a nonempty all-ASCII-digit character list, else failure.
(Python's int() also accepts non-ASCII digits and underscore grouping;
those source-level inputs never arise from this interpreter's data and
are not modelled.) -/
def digitsVal (l : List Char) : Option Nat :=
  if l.isEmpty then Option.none
  else if l.all Char.isDigit then some (l.foldl (fun acc c => acc * 10 + digitVal c) 0)
  else Option.none

/-- Python int(s): strip whitespace, optional single sign, decimal digits. -/
def pyInt (s : String) : Option Int :=
  let t := ((s.toList.dropWhile isPySpace).reverse.dropWhile isPySpace).reverse
  match t with
  | [] => Option.none
  | c :: rest =>
      if c = '-' then (digitsVal rest).map (fun n => -(n : Int))
      else if c = '+' then (digitsVal rest).map (fun n => (n : Int))
      else (digitsVal (c :: rest)).map (fun n => (n : Int))

/-- Python chr(n): defined for 0 <= n <= 0x10FFFF.  (Lean Char cannot
carry lone surrogates; chr is only applied to three-digit escape values
below 1000 in this program, where the two notions agree.) -/
def pyChr (n : Int) : Option Char :=
  if 0 ≤ n ∧ n < 1114112 then some (Char.ofNat n.toNat) else Option.none

/-- Python str(x) on the values the interpreter stores. -/
def pyStr : PyVal → String
  | .str s => s
  | .int n => toString n
  | .bool b => if b then "True" else "False"
  | .none => "None"

def pyLower (s : String) : String := String.mk (s.toList.map Char.toLower)

/-- Python str.capitalize(): first character upper-cased, the rest
lower-cased. -/
def pyCapitalize (s : String) : String :=
  match s.toList with
  | [] => ""
  | c :: rest => String.mk (Char.toUpper c :: rest.map Char.toLower)

/-- The x.lower() method call: only str has it; anything else raises
AttributeError. -/
def pyLowerMeth (x : PyVal) : Except Halt String :=
  match x with
  | .str s => pure (pyLower s)
  | _ => throw (Halt.exc PyExc.attributeError)

/-- eval(str(x).lower().capitalize()) as the source uses it to turn a
stored bool into a Python bool: the capitalized text "True"/"False"
evaluates to the boolean; any other identifier raises NameError.
(Other accidentally-valid Python expressions such as "None" are not
modelled.) -/
def pyEvalCap (x : PyVal) : Except Halt Bool :=
  let s := pyCapitalize (pyLower (pyStr x))
  if s = "True" then pure true
  else if s = "False" then pure false
  else throw (Halt.exc PyExc.nameError)

/-- int(x) raising exceptions: ValueError on an unparsable str,
TypeError on None; already-numeric values convert directly. -/
def pyToIntExc : PyVal → Except PyExc Int
  | .str s =>
      match pyInt s with
      | some n => pure n
      | Option.none => throw PyExc.valueError
  | .int n => pure n
  | .bool b => pure (if b then 1 else 0)
  | .none => throw PyExc.typeError

/-- int(x) inside one of the source's try blocks whose except clause
maps ValueError to error(32); other exceptions stay uncaught. -/
def intOr32 (x : PyVal) : Except Halt Int :=
  match pyToIntExc x with
  | .ok n => pure n
  | .error PyExc.valueError => throw (Halt.exit 32)
  | .error e => throw (Halt.exc e)

/-- Python s[i] with negative-index wraparound; IndexError when out of
range. -/
def pyStrIdx (s : String) (i : Int) : Except PyExc Char :=
  let n : Int := s.length
  let j := if i < 0 then i + n else i
  if 0 ≤ j ∧ j < n then
    match s.toList.get? j.toNat with
    | some c => pure c
    | Option.none => throw PyExc.indexError
  else throw PyExc.indexError

/-- Python s[:k] (slices clamp instead of raising). -/
def pySliceTo (s : String) (k : Int) : String :=
  let n : Int := s.length
  let j := if k < 0 then max 0 (k + n) else min k n
  String.mk (s.toList.take j.toNat)

/-- Python s[k:]. -/
def pySliceFrom (s : String) (k : Int) : String :=
  let n : Int := s.length
  let j := if k < 0 then max 0 (k + n) else min k n
  String.mk (s.toList.drop j.toNat)

/-- The source's Stack class: a Python list plus cached first/last
element references (class Stack, interpret.py). -/
structure Stack (α : Type) where
  stack : List α
  lastElem : Option α
  firstElem : Option α
deriving DecidableEq, Repr

namespace Stack

def empty {α : Type} : Stack α := ⟨[], Option.none, Option.none⟩

/-- Stack.append: push at the end of the Python list, update the caches. -/
def append {α : Type} (s : Stack α) (x : α) : Stack α :=
  { stack := s.stack ++ [x]
    firstElem := match s.firstElem with
      | Option.none => some x
      | some f => some f
    lastElem := some x }

/-- Stack.pop: list.pop() then recache stack[-1]; an IndexError (from
popping an empty list, or from stack[-1] on the now-empty list) resets
both caches to None. -/
def pop {α : Type} (s : Stack α) : Stack α :=
  match s.stack with
  | [] => { s with lastElem := Option.none, firstElem := Option.none }
  | _ :: _ =>
      let st := s.stack.dropLast
      match st.getLast? with
      | some l => { s with stack := st, lastElem := some l }
      | Option.none => { stack := st, lastElem := Option.none, firstElem := Option.none }

/-- Stack.get_top returns the cached last element (None when empty). -/
def get_top {α : Type} (s : Stack α) : Option α := s.lastElem

/-- Writing through the reference returned by get_top (the source does
local_frame_stack.get_top()[name] = value): the top list cell and the
last-element cache are the same Python object, so both change; with a
single element the first-element cache is that object too. -/
def setTop {α : Type} (s : Stack α) (x : α) : Stack α :=
  { stack := s.stack.dropLast ++ [x]
    lastElem := some x
    firstElem := if s.stack.length = 1 then some x else s.firstElem }

end Stack

/-- The source's TemporaryFrame class: a dict plus an explicit
initialized flag (remove() clears only the flag, keeping the dict). -/
structure TemporaryFrame where
  initialized : Bool
  data : Frame
deriving DecidableEq, Repr

def TemporaryFrame.exists_var (tf : TemporaryFrame) (name : String) : Bool :=
  fMem tf.data name

/-- TemporaryFrame.get_var returns the tuple, or Python None when the
name is absent. -/
def TemporaryFrame.get_var (tf : TemporaryFrame) (name : String) : Option Tup :=
  fLookup tf.data name

/-- One decoded instruction as the Instruction class holds it after
create_dependencies: the opcode, the argument list of (text, type)
pairs, and the dependency list (texts of var- and label-typed
arguments). -/
structure Instr where
  opcode : String
  argList : List (String × String)
  dependencies : List String
deriving DecidableEq, Repr

/-- The mutable interpreter state shared by Interpret and Operations:
frames, the three stacks, the label map, the FlowControl instruction
pointer, and the text written to stdout so far. -/
structure IState where
  globalFrame : Frame
  temporaryFrame : TemporaryFrame
  localFrameStack : Stack Frame
  dataStack : Stack Tup
  callStack : Stack Nat
  labelList : List (String × Nat)
  index : Nat
  out : String
deriving DecidableEq, Repr

/-- The state Interpret.__init__ builds: empty frames and stacks.  The
label list is filled by get_all_labels before execution. -/
def init_state : IState :=
  { globalFrame := []
    temporaryFrame := ⟨false, []⟩
    localFrameStack := Stack.empty
    dataStack := Stack.empty
    callStack := Stack.empty
    labelList := []
    index := 0
    out := "" }

def lookupL : List (String × Nat) → String → Option Nat
  | [], _ => Option.none
  | (k, v) :: rest, n => if k = n then some v else lookupL rest n

/-- Python list indexing lst[i] for non-negative i; IndexError past the
end. -/
def pyIdx {α : Type} (l : List α) (i : Nat) : Except Halt α :=
  match l.get? i with
  | some x => pure x
  | Option.none => throw (Halt.exc PyExc.indexError)

/-- An arg_list entry (text, attype) seen as a runtime tuple, as the
source passes the raw pair around. -/
def liftArg (a : String × String) : Tup := (PyVal.str a.1, some a.2)

/-- Python's str.split("@") (single-character separator). -/
def splitOnAux (sep : Char) : List Char → List Char → List (List Char)
  | [], acc => [acc.reverse]
  | c :: rest, acc =>
      if c = sep then acc.reverse :: splitOnAux sep rest []
      else splitOnAux sep rest (c :: acc)

def pySplitAt (s : String) : List String :=
  (splitOnAux '@' s.toList []).map String.mk

/-- Operations.frame_exists. -/
def frame_exists (st : IState) (frame : String) : Except Halt Unit :=
  if frame = "GF" then pure ()
  else if frame = "TF" then
    if st.temporaryFrame.initialized then pure () else throw (Halt.exit 55)
  else if frame = "LF" then
    match st.localFrameStack.get_top with
    | Option.none => throw (Halt.exit 55)
    | some _ => pure ()
  else throw (Halt.exit 31)

/-- One dependency of Operations.dependency_check.  frame, name =
dp.split("@") raises ValueError unless the text has exactly one "@"
(so a bare label dependency would crash here). -/
def depCheck1 (st : IState) (dp : String) : Except Halt Unit :=
  match pySplitAt dp with
  | [frame, name] =>
      if frame = "GF" then
        if fMem st.globalFrame name then pure () else throw (Halt.exit 54)
      else if frame = "TF" then do
        let _ ← frame_exists st "TF"
        if st.temporaryFrame.exists_var name then pure () else throw (Halt.exit 54)
      else if frame = "LF" then do
        let _ ← frame_exists st "LF"
        match st.localFrameStack.get_top with
        | some fr => if fMem fr name then pure () else throw (Halt.exit 54)
        | Option.none => throw (Halt.exc PyExc.typeError)
      else throw (Halt.exit 31)
  | _ => throw (Halt.exc PyExc.valueError)

/-- Operations.dependency_check: every dependency in turn. -/
def dependency_check (st : IState) (instr : Instr) : Except Halt Unit :=
  instr.dependencies.forM (depCheck1 st)

/-- Operations.check_arg_types: compares the first character of each
argument's type with the corresponding character of types (an index past
either end raises IndexError). -/
def check_arg_types : List (String × String) → List Char → Except Halt Unit
  | [], _ => pure ()
  | a :: rest, types =>
      match types.head? with
      | Option.none => throw (Halt.exc PyExc.indexError)
      | some t =>
          match a.2.toList.head? with
          | Option.none => throw (Halt.exc PyExc.indexError)
          | some c => if c ≠ t then throw (Halt.exit 53) else check_arg_types rest types.tail

/-- Operations.in_frame. -/
def in_frame (st : IState) (name frame : String) : Except Halt Bool :=
  if frame = "GF" then pure (fMem st.globalFrame name)
  else if frame = "TF" then pure (st.temporaryFrame.exists_var name)
  else if frame = "LF" then
    match st.localFrameStack.get_top with
    | some fr => pure (fMem fr name)
    | Option.none => throw (Halt.exc PyExc.typeError)
  else throw (Halt.exit 31)

/-- Operations.get_frame_value.  A missing global or local name raises
KeyError; an absent local frame means subscripting None, a TypeError.
For a missing temporary name (and for an unknown frame prefix) the
Python function returns None, and every caller immediately subscripts
that None, raising TypeError; the embedding raises it here. -/
def get_frame_value (st : IState) (ref : String) : Except Halt Tup :=
  match pySplitAt ref with
  | [frame, name] =>
      if frame = "GF" then
        match fLookup st.globalFrame name with
        | some v => pure v
        | Option.none => throw (Halt.exc PyExc.keyError)
      else if frame = "LF" then
        match st.localFrameStack.get_top with
        | Option.none => throw (Halt.exc PyExc.typeError)
        | some fr =>
            match fLookup fr name with
            | some v => pure v
            | Option.none => throw (Halt.exc PyExc.keyError)
      else if frame = "TF" then
        match st.temporaryFrame.get_var name with
        | some v => pure v
        | Option.none => throw (Halt.exc PyExc.typeError)
      else throw (Halt.exc PyExc.typeError)
  | _ => throw (Halt.exc PyExc.valueError)

/-- Operations.set_frame_value.  An unknown frame prefix silently does
nothing (no else branch in the source). -/
def set_frame_value (st : IState) (ref : String) (value : Tup) : Except Halt IState :=
  match pySplitAt ref with
  | [frame, name] =>
      if frame = "GF" then
        pure { st with globalFrame := fSet st.globalFrame name value }
      else if frame = "LF" then
        match st.localFrameStack.get_top with
        | Option.none => throw (Halt.exc PyExc.typeError)
        | some fr =>
            pure { st with localFrameStack := st.localFrameStack.setTop (fSet fr name value) }
      else if frame = "TF" then
        pure { st with temporaryFrame :=
          { st.temporaryFrame with data := fSet st.temporaryFrame.data name value } }
      else pure st
  | _ => throw (Halt.exc PyExc.valueError)

/-- The operand pattern shared by the handlers: if arg[1] == "var" the
argument is replaced by get_frame_value(arg[0]), otherwise the raw
(text, type) pair is used. -/
def resolveSym (st : IState) (a : String × String) : Except Halt Tup :=
  if a.2 = "var" then get_frame_value st a.1 else pure (liftArg a)

/-- Operations.move. -/
def move (st : IState) (instr : Instr) : Except Halt IState := do
  let _ ← dependency_check st instr
  let a0 ← pyIdx instr.argList 0
  let a1 ← pyIdx instr.argList 1
  if a1.2 = "var" then do
    let arg1_value ← get_frame_value st a0.1
    let arg2_value ← get_frame_value st a1.1
    if arg2_value.2 = Option.none then throw (Halt.exit 56)
    else if arg1_value.2 = Option.none ∨ arg1_value.2 = arg2_value.2 then
      set_frame_value st a0.1 arg2_value
    else throw (Halt.exit 53)
  else if a1.2 = "int" ∨ a1.2 = "string" ∨ a1.2 = "bool" ∨ a1.2 = "nil" then do
    let arg1_value ← get_frame_value st a0.1
    if arg1_value.2 = Option.none ∨ arg1_value.2 = some a1.2 then
      set_frame_value st a0.1 (PyVal.str a1.1, some a1.2)
    else throw (Halt.exit 53)
  else throw (Halt.exit 53)

/-- Operations.createframe. -/
def createframe (st : IState) (_instr : Instr) : Except Halt IState :=
  pure { st with temporaryFrame := ⟨true, []⟩ }

/-- Operations.pushframe: the dict moves to the local stack and only the
initialized flag of the temporary frame is cleared. -/
def pushframe (st : IState) (_instr : Instr) : Except Halt IState :=
  if st.temporaryFrame.initialized then
    pure { st with
      localFrameStack := st.localFrameStack.append st.temporaryFrame.data
      temporaryFrame := { st.temporaryFrame with initialized := false } }
  else throw (Halt.exit 55)

/-- Operations.popframe. -/
def popframe (st : IState) (_instr : Instr) : Except Halt IState :=
  match st.localFrameStack.get_top with
  | some fr =>
      pure { st with
        temporaryFrame := ⟨true, fr⟩
        localFrameStack := st.localFrameStack.pop }
  | Option.none => throw (Halt.exit 55)

/-- Operations.defvar. -/
def defvar (st : IState) (instr : Instr) : Except Halt IState := do
  let _ ← check_arg_types instr.argList ['v']
  let a0 ← pyIdx instr.argList 0
  match pySplitAt a0.1 with
  | [frame, name] => do
      let _ ← frame_exists st frame
      let b ← in_frame st name frame
      if b then throw (Halt.exit 52)
      else if frame = "GF" then
        pure { st with globalFrame := fSet st.globalFrame name (PyVal.none, Option.none) }
      else if frame = "TF" then
        pure { st with temporaryFrame :=
          { st.temporaryFrame with data := fSet st.temporaryFrame.data name (PyVal.none, Option.none) } }
      else if frame = "LF" then
        match st.localFrameStack.get_top with
        | some fr =>
            pure { st with localFrameStack :=
              st.localFrameStack.setTop (fSet fr name (PyVal.none, Option.none)) }
        | Option.none => throw (Halt.exc PyExc.typeError)
      else throw (Halt.exit 31)
  | _ => throw (Halt.exc PyExc.valueError)

/-- Operations.call: the current FlowControl index (already past the
CALL, see step below) is pushed before the label is examined. -/
def call (st : IState) (instr : Instr) : Except Halt IState := do
  let curr := st.index
  let st1 := { st with callStack := st.callStack.append curr }
  let label ← pyIdx instr.argList 0
  if label.2 ≠ "label" then throw (Halt.exit 57)
  else
    match lookupL st1.labelList label.1 with
    | Option.none => throw (Halt.exit 52)
    | some i => pure { st1 with index := i }

/-- Operations.return_. -/
def return_ (st : IState) (_instr : Instr) : Except Halt IState :=
  match st.callStack.get_top with
  | Option.none => throw (Halt.exit 56)
  | some i => pure { st with callStack := st.callStack.pop, index := i }

/-- Operations.pushs. -/
def pushs (st : IState) (instr : Instr) : Except Halt IState := do
  let _ ← dependency_check st instr
  let a0 ← pyIdx instr.argList 0
  let v ←
    if a0.2 = "var" then do
      let x ← get_frame_value st a0.1
      if x.2 = Option.none then throw (Halt.exit 56) else pure x
    else if a0.2 = "type" ∨ a0.2 = "label" then throw (Halt.exit 53)
    else pure (liftArg a0)
  pure { st with dataStack := st.dataStack.append v }

/-- Operations.pops.  Note the source compares the popped tuple's type
with instruction.arg_list[0][1] (the literal type string "var" of the
destination operand), not with the destination variable's stored type,
so the test reduces to the variable being initialized at all. -/
def pops (st : IState) (instr : Instr) : Except Halt IState := do
  let _ ← dependency_check st instr
  match st.dataStack.get_top with
  | Option.none => throw (Halt.exit 56)
  | some top_val => do
      let a0 ← pyIdx instr.argList 0
      let fv ← get_frame_value st a0.1
      if top_val.2 ≠ some a0.2 ∧ fv.2 ≠ Option.none then throw (Halt.exit 53)
      else do
        let st1 ← set_frame_value st a0.1 top_val
        pure { st1 with dataStack := st1.dataStack.pop }

/-- Operations.math_ops.  The try block maps ValueError from int() to
error(32) and ZeroDivisionError to error(57); an unknown op is
error(99). -/
def math_ops (st : IState) (instr : Instr) (op : String) : Except Halt IState := do
  let _ ← dependency_check st instr
  let a0 ← pyIdx instr.argList 0
  let arg1 ← get_frame_value st a0.1
  let a2 ← pyIdx instr.argList 1
  let a3 ← pyIdx instr.argList 2
  if arg1.2 ≠ Option.none ∧ arg1.2 ≠ some "int" then throw (Halt.exit 53)
  else do
    let arg2 ← resolveSym st a2
    if arg2.2 ≠ some "int" then throw (Halt.exit 53)
    else do
      let arg3 ← resolveSym st a3
      if arg3.2 ≠ some "int" then throw (Halt.exit 53)
      else do
        let result ←
          if op = "+" then do
            let x ← intOr32 arg2.1
            let y ← intOr32 arg3.1
            pure (x + y)
          else if op = "-" then do
            let x ← intOr32 arg2.1
            let y ← intOr32 arg3.1
            pure (x - y)
          else if op = "*" then do
            let x ← intOr32 arg2.1
            let y ← intOr32 arg3.1
            pure (x * y)
          else if op = "/" then do
            let x ← intOr32 arg2.1
            let y ← intOr32 arg3.1
            if y = 0 then throw (Halt.exit 57) else pure (Int.fdiv x y)
          else throw (Halt.exit 99)
        set_frame_value st a0.1 (PyVal.int result, some "int")

/-- A value after the eq/j_eq conversion step: either a bare Python
value (string text, converted int, or evaluated bool) or the untouched
tuple for every other type tag. -/
inductive JVal
  | v (x : PyVal)
  | tup (t : Tup)
deriving DecidableEq, Repr

/-- Python == between bare values (1 == True holds in Python; values of
unrelated types compare unequal). -/
def pyValEq : PyVal → PyVal → Bool
  | .str a, .str b => a = b
  | .int a, .int b => a = b
  | .bool a, .bool b => a = b
  | .none, .none => true
  | .int a, .bool b => a = (if b then 1 else 0)
  | .bool a, .int b => (if a then 1 else 0) = b
  | _, _ => false

/-- Python == between converted operands (a bare value never equals a
tuple). -/
def jvalEq : JVal → JVal → Bool
  | .v x, .v y => pyValEq x y
  | .tup a, .tup b => decide (a = b)
  | _, _ => false

/-- The conversion block shared by Operations.eq and Operations.j_eq:
string keeps the raw value, bool goes through
eval(str(x).lower().capitalize()), int through int() with ValueError
mapped to error(32); any other tag keeps the whole tuple. -/
def jeqConv (a : Tup) : Except Halt JVal :=
  if a.2 = some "string" then pure (JVal.v a.1)
  else if a.2 = some "bool" then do
    let b ← pyEvalCap a.1
    pure (JVal.v (PyVal.bool b))
  else if a.2 = some "int" then do
    let n ← intOr32 a.1
    pure (JVal.v (PyVal.int n))
  else pure (JVal.tup a)

/-- Operations.j_eq (Operations.eq duplicates this comparison verbatim
before storing instead of returning; both are embedded through this
function). -/
def j_eq (arg2 arg3 : Tup) : Except Halt Bool := do
  let t2 := arg2.2
  let t3 := arg3.2
  if arg2.2 ≠ arg3.2 ∧ arg2.2 ≠ some "nil" ∧ arg3.2 ≠ some "nil" then throw (Halt.exit 53)
  else do
    let v2 ← jeqConv arg2
    let v3 ← jeqConv arg3
    if t2 = some "nil" ∧ t3 = some "nil" then pure true
    else if t2 = some "nil" ∨ t3 = some "nil" then pure false
    else pure (jvalEq v2 v3)

/-- Operations.eq. -/
def eq_op (st : IState) (instr : Instr) (arg2 arg3 : Tup) : Except Halt IState := do
  let result ← j_eq arg2 arg3
  let a0 ← pyIdx instr.argList 0
  set_frame_value st a0.1 (PyVal.bool result, some "bool")

/-- A value after the relation_ops conversion: int, evaluated bool, or
the raw value for the remaining (string-compared) branch. -/
inductive CmpV
  | i (n : Int)
  | b (x : Bool)
  | s (t : String)
deriving DecidableEq, Repr

def relConv (argsType : Option String) (a : Tup) : Except Halt CmpV :=
  if argsType = some "int" then do
    let n ← intOr32 a.1
    pure (CmpV.i n)
  else if argsType = some "bool" then do
    let b ← pyEvalCap a.1
    pure (CmpV.b b)
  else
    match a.1 with
    | .str t => pure (CmpV.s t)
    | _ => throw (Halt.exc PyExc.typeError)

/-- Python < on the converted operands (both sides are always in the
same branch because the type tags were checked equal).  Strings compare
lexicographically by code point; False < True. -/
def cmpLt : CmpV → CmpV → Except Halt Bool
  | .i a, .i b => pure (decide (a < b))
  | .b a, .b b => pure (!a && b)
  | .s a, .s b => pure (decide (a < b))
  | _, _ => throw (Halt.exc PyExc.typeError)

/-- Operations.relation_ops.  Note the dead "lable" comparison in the
source: a label-typed operand is not rejected and falls through to the
string branch. -/
def relation_ops (st : IState) (instr : Instr) (op : String) : Except Halt IState := do
  let _ ← dependency_check st instr
  let a0 ← pyIdx instr.argList 0
  let arg1 ← get_frame_value st a0.1
  let a2 ← pyIdx instr.argList 1
  let a3 ← pyIdx instr.argList 2
  if arg1.2 ≠ Option.none ∧ arg1.2 ≠ some "bool" then throw (Halt.exit 53)
  else do
    let arg2 ← resolveSym st a2
    let arg3 ← resolveSym st a3
    if op = "==" then eq_op st instr arg2 arg3
    else if arg2.2 ≠ arg3.2 then throw (Halt.exit 53)
    else do
      let args_type := arg2.2
      if args_type = some "nil" ∨ args_type = some "lable" ∨ arg2.2 = some "type" then
        throw (Halt.exit 53)
      else do
        let x ← relConv args_type arg2
        let y ← relConv args_type arg3
        let result ←
          if op = ">" then cmpLt y x
          else if op = "<" then cmpLt x y
          else throw (Halt.exit 99)
        set_frame_value st a0.1 (PyVal.bool result, some "bool")

/-- Operations.and_or.  Python and/or short-circuit: the right operand
is only evaluated (a possible NameError) when the left one does not
decide the result. -/
def and_or (st : IState) (instr : Instr) (op : String) : Except Halt IState := do
  let _ ← dependency_check st instr
  let a0 ← pyIdx instr.argList 0
  let arg1 ← get_frame_value st a0.1
  let a2 ← pyIdx instr.argList 1
  let a3 ← pyIdx instr.argList 2
  if arg1.2 ≠ Option.none ∧ arg1.2 ≠ some "bool" then throw (Halt.exit 53)
  else do
    let arg2 ← resolveSym st a2
    if arg2.2 ≠ some "bool" then throw (Halt.exit 53)
    else do
      let arg3 ← resolveSym st a3
      if arg3.2 ≠ some "bool" then throw (Halt.exit 53)
      else do
        let result ←
          if op = "and" then do
            let b2 ← pyEvalCap arg2.1
            if b2 = false then pure false else pyEvalCap arg3.1
          else if op = "or" then do
            let b2 ← pyEvalCap arg2.1
            if b2 = true then pure true else pyEvalCap arg3.1
          else throw (Halt.exit 99)
        set_frame_value st a0.1 (PyVal.bool result, some "bool")

/-- Operations.not_.  The source computes
not bool(arg2[0].lower().capitalize()): bool() on a string is just
non-emptiness, so the result is True exactly when the stored text is
empty — the text "true"/"false" is never actually consulted.  .lower()
on a non-string (a computed Python bool) raises AttributeError. -/
def not_ (st : IState) (instr : Instr) : Except Halt IState := do
  let _ ← dependency_check st instr
  let a0 ← pyIdx instr.argList 0
  let arg1 ← get_frame_value st a0.1
  let a2 ← pyIdx instr.argList 1
  if arg1.2 ≠ Option.none ∧ arg1.2 ≠ some "bool" then throw (Halt.exit 53)
  else do
    let arg2 ← resolveSym st a2
    if arg2.2 ≠ some "bool" then throw (Halt.exit 53)
    else do
      let s ← pyLowerMeth arg2.1
      let result := (pyCapitalize s).isEmpty
      set_frame_value st a0.1 (PyVal.bool result, some "bool")

/-- Operations.int2char (a non-int operand is error(58) in the source;
chr() out of range raises ValueError, caught as error(32)). -/
def int2char (st : IState) (instr : Instr) : Except Halt IState := do
  let _ ← dependency_check st instr
  let a0 ← pyIdx instr.argList 0
  let arg1 ← get_frame_value st a0.1
  let a2 ← pyIdx instr.argList 1
  if arg1.2 ≠ Option.none ∧ arg1.2 ≠ some "string" then throw (Halt.exit 53)
  else do
    let arg2 ← resolveSym st a2
    if arg2.2 ≠ some "int" then throw (Halt.exit 58)
    else do
      let n ← intOr32 arg2.1
      match pyChr n with
      | Option.none => throw (Halt.exit 32)
      | some c => set_frame_value st a0.1 (PyVal.str (String.mk [c]), some "string")

/-- str(x) subscripting for the string handlers: only a stored str can
be indexed. -/
def pyValStrIdx (v : PyVal) (i : Int) : Except PyExc Char :=
  match v with
  | .str s => pyStrIdx s i
  | _ => throw PyExc.typeError

/-- Exception mapping for the string-handler try blocks: ValueError is
error(32), IndexError is error(58), anything else stays uncaught. -/
def strTry {α : Type} (m : Except PyExc α) : Except Halt α :=
  match m with
  | .ok a => pure a
  | .error PyExc.valueError => throw (Halt.exit 32)
  | .error PyExc.indexError => throw (Halt.exit 58)
  | .error e => throw (Halt.exc e)

/-- Operations.stri2int. -/
def stri2int (st : IState) (instr : Instr) : Except Halt IState := do
  let _ ← dependency_check st instr
  let a0 ← pyIdx instr.argList 0
  let arg1 ← get_frame_value st a0.1
  let a2 ← pyIdx instr.argList 1
  let a3 ← pyIdx instr.argList 2
  if arg1.2 ≠ Option.none ∧ arg1.2 ≠ some "int" then throw (Halt.exit 53)
  else do
    let arg2 ← resolveSym st a2
    if arg2.2 ≠ some "string" then throw (Halt.exit 53)
    else do
      let arg3 ← resolveSym st a3
      if arg3.2 ≠ some "int" then throw (Halt.exit 53)
      else do
        let n ← strTry (pyToIntExc arg3.1)
        let c ← strTry (pyValStrIdx arg2.1 n)
        set_frame_value st a0.1 (PyVal.int c.toNat, some "int")

/-- Operations.read is an unimplemented stub in the source
("TODO skip for now" / pass): no input is read and no variable is
assigned. -/
def read (st : IState) (_instr : Instr) : Except Halt IState := pure st

/-- Operations.write: appends the textual form to stdout; nil prints
nothing, bool goes through .lower() (AttributeError for a computed
Python bool). -/
def write (st : IState) (instr : Instr) : Except Halt IState := do
  let _ ← dependency_check st instr
  let a0 ← pyIdx instr.argList 0
  let arg1 ← resolveSym st a0
  if arg1.2 = some "nil" then pure { st with out := st.out ++ "" }
  else if arg1.2 = some "bool" then do
    let s ← pyLowerMeth arg1.1
    pure { st with out := st.out ++ s }
  else pure { st with out := st.out ++ pyStr arg1.1 }

/-- Operations.concat. -/
def concat (st : IState) (instr : Instr) : Except Halt IState := do
  let _ ← dependency_check st instr
  let a0 ← pyIdx instr.argList 0
  let arg1 ← get_frame_value st a0.1
  let a2 ← pyIdx instr.argList 1
  let a3 ← pyIdx instr.argList 2
  if arg1.2 ≠ Option.none ∧ arg1.2 ≠ some "string" then throw (Halt.exit 53)
  else do
    let arg2 ← resolveSym st a2
    if arg2.2 ≠ some "string" then throw (Halt.exit 53)
    else do
      let arg3 ← resolveSym st a3
      if arg3.2 ≠ some "string" then throw (Halt.exit 53)
      else
        match arg2.1, arg3.1 with
        | .str x, .str y => set_frame_value st a0.1 (PyVal.str (x ++ y), some "string")
        | _, _ => throw (Halt.exc PyExc.typeError)

/-- Operations.strlen. -/
def strlen (st : IState) (instr : Instr) : Except Halt IState := do
  let _ ← dependency_check st instr
  let a0 ← pyIdx instr.argList 0
  let arg1 ← get_frame_value st a0.1
  let a2 ← pyIdx instr.argList 1
  if arg1.2 ≠ Option.none ∧ arg1.2 ≠ some "int" then throw (Halt.exit 53)
  else do
    let arg2 ← resolveSym st a2
    if arg2.2 ≠ some "string" then throw (Halt.exit 53)
    else
      match arg2.1 with
      | .str x => set_frame_value st a0.1 (PyVal.int x.length, some "int")
      | _ => throw (Halt.exc PyExc.typeError)

/-- Operations.getchar. -/
def getchar (st : IState) (instr : Instr) : Except Halt IState := do
  let _ ← dependency_check st instr
  let a0 ← pyIdx instr.argList 0
  let arg1 ← get_frame_value st a0.1
  let a2 ← pyIdx instr.argList 1
  let a3 ← pyIdx instr.argList 2
  if arg1.2 ≠ Option.none ∧ arg1.2 ≠ some "string" then throw (Halt.exit 53)
  else do
    let arg2 ← resolveSym st a2
    if arg2.2 ≠ some "string" then throw (Halt.exit 53)
    else do
      let arg3 ← resolveSym st a3
      if arg3.2 ≠ some "int" then throw (Halt.exit 53)
      else do
        let n ← strTry (pyToIntExc arg3.1)
        let c ← strTry (pyValStrIdx arg2.1 n)
        set_frame_value st a0.1 (PyVal.str (String.mk [c]), some "string")

/-- Operations.setchar (slices clamp, so only int() and the arg3[0][0]
access can raise inside the try). -/
def setchar (st : IState) (instr : Instr) : Except Halt IState := do
  let _ ← dependency_check st instr
  let a0 ← pyIdx instr.argList 0
  let arg1 ← get_frame_value st a0.1
  let a2 ← pyIdx instr.argList 1
  let a3 ← pyIdx instr.argList 2
  if arg1.2 ≠ some "string" then throw (Halt.exit 53)
  else do
    let arg2 ← resolveSym st a2
    if arg2.2 ≠ some "int" then throw (Halt.exit 53)
    else do
      let arg3 ← resolveSym st a3
      if arg3.2 ≠ some "string" then throw (Halt.exit 53)
      else do
        let idx ← strTry (pyToIntExc arg2.1)
        let r_as ← strTry (pyValStrIdx arg3.1 0)
        match arg1.1 with
        | .str s =>
            let result := pySliceTo s idx ++ String.mk [r_as] ++ pySliceFrom s (idx + 1)
            set_frame_value st a0.1 (PyVal.str result, some "string")
        | _ => throw (Halt.exc PyExc.typeError)

/-- Operations.type_. -/
def type_ (st : IState) (instr : Instr) : Except Halt IState := do
  let _ ← dependency_check st instr
  let a0 ← pyIdx instr.argList 0
  let arg1 ← get_frame_value st a0.1
  let a2 ← pyIdx instr.argList 1
  if arg1.2 ≠ Option.none ∧ arg1.2 ≠ some "string" then throw (Halt.exit 53)
  else do
    let arg2 ← resolveSym st a2
    match arg2.2 with
    | Option.none => set_frame_value st a0.1 (PyVal.str "", some "string")
    | some t => set_frame_value st a0.1 (PyVal.str t, some "string")

/-- Operations.jump: the label is only consulted here; an unknown label
is error(52), a non-label first operand error(57). -/
def jump (st : IState) (instr : Instr) : Except Halt IState := do
  let label ← pyIdx instr.argList 0
  if label.2 ≠ "label" then throw (Halt.exit 57)
  else
    match lookupL st.labelList label.1 with
    | Option.none => throw (Halt.exit 52)
    | some i => pure { st with index := i }

/-- Operations.jumpifeq: no dependency_check; the two symbols are
resolved directly, compared with j_eq, and jump runs only when they are
equal. -/
def jumpifeq (st : IState) (instr : Instr) : Except Halt IState := do
  let a2 ← pyIdx instr.argList 1
  let a3 ← pyIdx instr.argList 2
  let arg2 ← resolveSym st a2
  let arg3 ← resolveSym st a3
  let result ← j_eq arg2 arg3
  if result then jump st instr else pure st

/-- Operations.jumpifneq. -/
def jumpifneq (st : IState) (instr : Instr) : Except Halt IState := do
  let a2 ← pyIdx instr.argList 1
  let a3 ← pyIdx instr.argList 2
  let arg2 ← resolveSym st a2
  let arg3 ← resolveSym st a3
  let result ← j_eq arg2 arg3
  if !result then jump st instr else pure st

/-- Operations.exit_: int() failure is error(32) (caught ValueError),
codes outside [0, 49] error(57), otherwise terminate with the code. -/
def exit_ (st : IState) (instr : Instr) : Except Halt IState := do
  let _ ← dependency_check st instr
  let a0 ← pyIdx instr.argList 0
  let arg1 ← resolveSym st a0
  if arg1.2 ≠ some "int" then throw (Halt.exit 53)
  else do
    let errcode ← intOr32 arg1.1
    if errcode < 0 ∨ errcode > 49 then throw (Halt.exit 57)
    else throw (Halt.exit errcode)

/-- Operations.dprint writes only to stderr (not modelled); the checks
before the print are kept. -/
def dprint (st : IState) (instr : Instr) : Except Halt IState := do
  let _ ← dependency_check st instr
  let a0 ← pyIdx instr.argList 0
  let _ ← resolveSym st a0
  pure st

/-- Operations.break_ writes a diagnostic to stderr only (not
modelled). -/
def break_ (st : IState) (_instr : Instr) : Except Halt IState := pure st

/-- A reference to one of the Operations handler functions, standing for
the function object stored in the source's dispatch_table (the extra
operator element of the math/relational/logical entries is carried in
the constructor). -/
inductive Handler
  | move | createframe | pushframe | popframe | defvar | call | return_ | pushs | pops
  | math_ops (op : String) | relation_ops (op : String) | and_or (op : String)
  | not_ | int2char | stri2int | read | write | concat | strlen | getchar | setchar
  | type_ | jump | jumpifeq | jumpifneq | exit_ | dprint | break_
deriving DecidableEq, Repr

/-- Operations.dispatch_table: opcode to (arity, handler).  LABEL has no
entry. -/
def dispatch_table (op : String) : Option (Nat × Handler) :=
  if op = "MOVE" then some (2, Handler.move)
  else if op = "CREATEFRAME" then some (0, Handler.createframe)
  else if op = "PUSHFRAME" then some (0, Handler.pushframe)
  else if op = "POPFRAME" then some (0, Handler.popframe)
  else if op = "DEFVAR" then some (1, Handler.defvar)
  else if op = "CALL" then some (1, Handler.call)
  else if op = "RETURN" then some (0, Handler.return_)
  else if op = "PUSHS" then some (1, Handler.pushs)
  else if op = "POPS" then some (1, Handler.pops)
  else if op = "ADD" then some (3, Handler.math_ops "+")
  else if op = "SUB" then some (3, Handler.math_ops "-")
  else if op = "MUL" then some (3, Handler.math_ops "*")
  else if op = "IDIV" then some (3, Handler.math_ops "/")
  else if op = "LT" then some (3, Handler.relation_ops "<")
  else if op = "GT" then some (3, Handler.relation_ops ">")
  else if op = "EQ" then some (3, Handler.relation_ops "==")
  else if op = "AND" then some (3, Handler.and_or "and")
  else if op = "OR" then some (3, Handler.and_or "or")
  else if op = "NOT" then some (2, Handler.not_)
  else if op = "INT2CHAR" then some (2, Handler.int2char)
  else if op = "STRI2INT" then some (3, Handler.stri2int)
  else if op = "READ" then some (2, Handler.read)
  else if op = "WRITE" then some (1, Handler.write)
  else if op = "CONCAT" then some (3, Handler.concat)
  else if op = "STRLEN" then some (2, Handler.strlen)
  else if op = "GETCHAR" then some (3, Handler.getchar)
  else if op = "SETCHAR" then some (3, Handler.setchar)
  else if op = "TYPE" then some (2, Handler.type_)
  else if op = "JUMP" then some (1, Handler.jump)
  else if op = "JUMPIFEQ" then some (3, Handler.jumpifeq)
  else if op = "JUMPIFNEQ" then some (3, Handler.jumpifneq)
  else if op = "EXIT" then some (1, Handler.exit_)
  else if op = "DPRINT" then some (1, Handler.dprint)
  else if op = "BREAK" then some (0, Handler.break_)
  else Option.none

def execHandler : Handler → IState → Instr → Except Halt IState
  | .move, st, i => move st i
  | .createframe, st, i => createframe st i
  | .pushframe, st, i => pushframe st i
  | .popframe, st, i => popframe st i
  | .defvar, st, i => defvar st i
  | .call, st, i => call st i
  | .return_, st, i => return_ st i
  | .pushs, st, i => pushs st i
  | .pops, st, i => pops st i
  | .math_ops op, st, i => math_ops st i op
  | .relation_ops op, st, i => relation_ops st i op
  | .and_or op, st, i => and_or st i op
  | .not_, st, i => not_ st i
  | .int2char, st, i => int2char st i
  | .stri2int, st, i => stri2int st i
  | .read, st, i => read st i
  | .write, st, i => write st i
  | .concat, st, i => concat st i
  | .strlen, st, i => strlen st i
  | .getchar, st, i => getchar st i
  | .setchar, st, i => setchar st i
  | .type_, st, i => type_ st i
  | .jump, st, i => jump st i
  | .jumpifeq, st, i => jumpifeq st i
  | .jumpifneq, st, i => jumpifneq st i
  | .exit_, st, i => exit_ st i
  | .dprint, st, i => dprint st i
  | .break_, st, i => break_ st i

/-- Operations.run_instruction: LABEL is a no-op before any lookup; a
KeyError from the dispatch table is error(32); an arity mismatch with
the instruction's argument count is error(32). -/
def run_instruction (st : IState) (instr : Instr) : Except Halt IState :=
  if instr.opcode = "LABEL" then pure st
  else
    match dispatch_table instr.opcode with
    | Option.none => throw (Halt.exit 32)
    | some (arity, h) =>
        if arity ≠ instr.argList.length then throw (Halt.exit 32)
        else execHandler h st instr

/-- One turn of Interpret.interpret's while loop: FlowControl's
next_instruction returns the instruction at the pointer and increments
the pointer past it before run_instruction executes; past the end the
loop stops (Except.ok none). -/
def step (prog : List Instr) (st : IState) : Except Halt (Option IState) :=
  match prog.get? st.index with
  | Option.none => pure Option.none
  | some instr => (run_instruction { st with index := st.index + 1 } instr).map some

/-- The loop body of FlowControl.initialize over the instruction
elements in document order, carrying the inst_dict: a missing order
attribute is KeyError, an unparsable one ValueError, both caught as
error(32); a duplicate or non-positive parsed order is error(32)
directly. -/
def initLoop {α : Type} (dict : List (Int × α)) :
    List (Option String × α) → Except Halt (List (Int × α))
  | [] => pure dict
  | (o, a) :: rest =>
      match o with
      | Option.none => throw (Halt.exit 32)
      | some s =>
          match pyInt s with
          | Option.none => throw (Halt.exit 32)
          | some n =>
              if (dict.map Prod.fst).contains n then throw (Halt.exit 32)
              else if n ≤ 0 then throw (Halt.exit 32)
              else initLoop (dict ++ [(n, a)]) rest

def insertPair {α : Type} (p : Int × α) : List (Int × α) → List (Int × α)
  | [] => [p]
  | q :: rest => if p.1 ≤ q.1 then p :: q :: rest else q :: insertPair p rest

/-- Python's sorted() over the dict keys, rebuilding the (order,
instruction) pairs in ascending key order (insertion sort; the keys are
unique so any comparison sort gives the same list). -/
def sortPairs {α : Type} : List (Int × α) → List (Int × α)
  | [] => []
  | p :: rest => insertPair p (sortPairs rest)

/-- FlowControl.initialize, from the per-instruction loop on: consumes
the (order attribute, element) children of the root in document order
and produces _sorted_ins.  (XML parsing and the root language check
happen upstream and are not part of the ordering contract.) -/
def initializeFlow {α : Type} (xs : List (Option String × α)) : Except Halt (List (Int × α)) :=
  (initLoop [] xs).map sortPairs

/-- The integer an instruction element's order attribute parses to (None
when the attribute is missing or int() fails on it). -/
def orderOf (x : Option String × Nat) : Option Int := x.1.bind pyInt

/-! ### Instruction.stringify: the escape decoder -/

/-- Python string.find(c, start): index of the first occurrence at or
after start, None when absent. -/
def findFromAux (c : Char) : List Char → Nat → Option Nat
  | [], _ => Option.none
  | a :: rest, i => if a = c then some i else findFromAux c rest (i + 1)

def findFrom (s : List Char) (c : Char) (start : Nat) : Option Nat :=
  (findFromAux c (s.drop start) 0).map (fun j => start + j)

/-- Python string.replace(pat, rep, 1): replace the first occurrence of
pat, leave the string unchanged when pat does not occur. -/
def replaceFirst : List Char → List Char → List Char → List Char
  | [], pat, rep => if pat.isEmpty then rep else []
  | a :: s, pat, rep =>
      if pat.isPrefixOf (a :: s) then rep ++ (a :: s).drop pat.length
      else a :: replaceFirst s pat rep

theorem findFromAux_get (c : Char) :
    ∀ (l : List Char) (i x : Nat), findFromAux c l i = some x →
      i ≤ x ∧ l.get? (x - i) = some c := by
  intro l
  induction l with
  | nil => intro i x h; simp [findFromAux] at h
  | cons a rest ih =>
      intro i x h
      by_cases ha : a = c
      · simp [findFromAux, ha] at h
        subst h
        simpa [ha] using Nat.le_refl i
      · simp [findFromAux, ha] at h
        obtain ⟨hle, hget⟩ := ih (i + 1) x h
        refine ⟨by omega, ?_⟩
        have hx : x - i = (x - (i + 1)) + 1 := by omega
        rw [hx]
        simpa using hget

theorem findFrom_get (s : List Char) (c : Char) (start x : Nat)
    (h : findFrom s c start = some x) : s.get? x = some c ∧ start ≤ x := by
  unfold findFrom at h
  cases haux : findFromAux c (s.drop start) 0 with
  | none => rw [haux] at h; simp at h
  | some j =>
      rw [haux] at h
      simp at h
      obtain ⟨_, hget⟩ := findFromAux_get c (s.drop start) 0 j haux
      rw [List.get?_drop] at hget
      subst h
      exact ⟨by simpa using hget, by omega⟩

theorem findFromAux_none (c : Char) (l : List Char) (h : c ∉ l) :
    ∀ i, findFromAux c l i = Option.none := by
  induction l with
  | nil => intro i; rfl
  | cons a rest ih =>
      intro i
      have ha : ¬ a = c := fun he => h (he ▸ List.mem_cons_self a rest)
      simp [findFromAux, ha]
      exact ih (fun hm => h (List.mem_cons_of_mem a hm)) (i + 1)

theorem findFrom_none (s : List Char) (c : Char) (start : Nat) (h : c ∉ s) :
    findFrom s c start = Option.none := by
  unfold findFrom
  rw [findFromAux_none c _ (fun hm => h (List.mem_of_mem_drop hm)) 0]
  rfl

theorem drop_cons_of_get? {s : List Char} {n : Nat} {a : Char}
    (h : s.get? n = some a) : s.drop n = a :: s.drop (n + 1) := by
  obtain ⟨hlt, hget⟩ := List.get?_eq_some.mp h
  rw [List.drop_eq_get_cons hlt, hget]

theorem prefix4 {s : List Char} {x : Nat} {d c1 c2 c3 : Char}
    (h0 : s.get? x = some d) (h1 : s.get? (x + 1) = some c1)
    (h2 : s.get? (x + 2) = some c2) (h3 : s.get? (x + 3) = some c3) :
    ([d, c1, c2, c3]).isPrefixOf (s.drop x) = true := by
  rw [drop_cons_of_get? h0, drop_cons_of_get? h1]
  have e2 : x + 1 + 1 = x + 2 := by omega
  rw [e2, drop_cons_of_get? h2]
  have e3 : x + 2 + 1 = x + 3 := by omega
  rw [e3, drop_cons_of_get? h3]
  simp [List.isPrefixOf]

theorem replaceFirst_length (pat rep : List Char) (hne : pat ≠ []) :
    ∀ (s : List Char) (x : Nat), pat.isPrefixOf (s.drop x) = true →
      (replaceFirst s pat rep).length + pat.length = s.length + rep.length := by
  intro s
  induction s with
  | nil =>
      intro x hp
      obtain ⟨p, ps, rfl⟩ : ∃ p ps, pat = p :: ps := by
        cases pat with
        | nil => exact absurd rfl hne
        | cons p ps => exact ⟨p, ps, rfl⟩
      simp [List.isPrefixOf] at hp
  | cons b s ih =>
      intro x hp
      by_cases hpre : pat.isPrefixOf (b :: s) = true
      · have hlen : pat.length ≤ (b :: s).length :=
          (List.isPrefixOf_iff_prefix.mp hpre).length_le
        simp only [replaceFirst]
        rw [if_pos hpre]
        simp only [List.length_append, List.length_drop]
        simp at hlen
        simp
        omega
      · have hx : ∃ y, x = y + 1 := by
          cases x with
          | zero => rw [List.drop_zero] at hp; exact absurd hp hpre
          | succ y => exact ⟨y, rfl⟩
        obtain ⟨y, rfl⟩ := hx
        have hp2 : pat.isPrefixOf (s.drop y) = true := by
          simpa using hp
        have := ih y hp2
        simp only [replaceFirst]
        rw [if_neg hpre]
        simp only [List.length_cons]
        omega

/-- Numeric value of a three-digit escape. -/
def escVal (c1 c2 c3 : Char) : Nat :=
  (digitVal c1 * 10 + digitVal c2) * 10 + digitVal c3

/-- One iteration of the while loop of Instruction.stringify: find the
leftmost backslash at or after start, read the following three
characters (IndexError past the end), int() them (start is moved to the
backslash first when they are not all digits; a failed int() is an
uncaught ValueError), and replace the first occurrence of the
four-character group by the decoded character.  The result is either
the loop's exit value or the (string, start) pair for the next
iteration. -/
def stringifyBody (s : List Char) (start : Nat) :
    (List Char × Nat) ⊕ (Except Halt (List Char)) :=
  match findFrom s '\\' start with
  | Option.none => Sum.inr (pure s)
  | some x =>
      match s.get? (x + 1) with
      | Option.none => Sum.inr (throw (Halt.exc PyExc.indexError))
      | some c1 =>
          match s.get? (x + 2) with
          | Option.none => Sum.inr (throw (Halt.exc PyExc.indexError))
          | some c2 =>
              match s.get? (x + 3) with
              | Option.none => Sum.inr (throw (Halt.exc PyExc.indexError))
              | some c3 =>
                  let start2 := if c1.isDigit && c2.isDigit && c3.isDigit then start else x
                  match pyInt (String.mk [c1, c2, c3]) with
                  | Option.none => Sum.inr (throw (Halt.exc PyExc.valueError))
                  | some n =>
                      match pyChr n with
                      | Option.none => Sum.inr (throw (Halt.exc PyExc.valueError))
                      | some ch => Sum.inl (replaceFirst s ['\\', c1, c2, c3] [ch], start2)

/-- The while loop of Instruction.stringify. -/
def stringifyLoop (s : List Char) (start : Nat) : Except Halt (List Char) :=
  match hb : stringifyBody s start with
  | Sum.inr r => r
  | Sum.inl (s2, start2) => stringifyLoop s2 start2
termination_by s.length
decreasing_by
  unfold stringifyBody at hb
  cases hfe : findFrom s '\\' start with
  | none => rw [hfe] at hb; simp at hb
  | some x =>
      rw [hfe] at hb
      simp only [] at hb
      cases hg1 : s.get? (x + 1) with
      | none => rw [hg1] at hb; simp at hb
      | some c1 =>
          rw [hg1] at hb
          simp only [] at hb
          cases hg2 : s.get? (x + 2) with
          | none => rw [hg2] at hb; simp at hb
          | some c2 =>
              rw [hg2] at hb
              simp only [] at hb
              cases hg3 : s.get? (x + 3) with
              | none => rw [hg3] at hb; simp at hb
              | some c3 =>
                  rw [hg3] at hb
                  simp only [] at hb
                  cases hn : pyInt (String.mk [c1, c2, c3]) with
                  | none => rw [hn] at hb; simp at hb
                  | some n =>
                      rw [hn] at hb
                      simp only [] at hb
                      cases hc : pyChr n with
                      | none => rw [hc] at hb; simp at hb
                      | some ch =>
                          rw [hc] at hb
                          simp only [] at hb
                          simp only [Sum.inl.injEq, Prod.mk.injEq] at hb
                          obtain ⟨hs2, _⟩ := hb
                          subst hs2
                          have hx : s.get? x = some '\\' := (findFrom_get s '\\' start x hfe).1
                          have hpre := prefix4 hx hg1 hg2 hg3
                          have hlen := replaceFirst_length ['\\', c1, c2, c3] [ch] (by simp) s x hpre
                          have hx3 : x + 3 < s.length := (List.get?_eq_some.mp hg3).1
                          simp at hlen
                          omega

/-- Instruction.stringify. -/
def stringify (s : List Char) : Except Halt (List Char) := stringifyLoop s 0

/-- Follows the claim's wording, for comparison with stringify: a single
left-to-right pass over the original text in which every substring
backslash-followed-by-exactly-three-decimal-digits is replaced by the
single code point chr(ddd), and all other characters are copied. -/
def decode_single_pass : List Char → List Char
  | '\\' :: c1 :: c2 :: c3 :: rest =>
      if c1.isDigit && c2.isDigit && c3.isDigit then
        Char.ofNat (escVal c1 c2 c3) :: decode_single_pass rest
      else '\\' :: decode_single_pass (c1 :: c2 :: c3 :: rest)
  | c :: rest => c :: decode_single_pass rest
  | [] => []

theorem stringifyBody_no_backslash (s : List Char) (start : Nat) (h : '\\' ∉ s) :
    stringifyBody s start = Sum.inr (Except.ok s) := by
  unfold stringifyBody
  rw [findFrom_none s '\\' start h]
  rfl

theorem stringifyLoop_no_backslash (s : List Char) (start : Nat) (h : '\\' ∉ s) :
    stringifyLoop s start = Except.ok s := by
  rw [stringifyLoop, stringifyBody_no_backslash s start h]

theorem isDigit_toNat {c : Char} (h : c.isDigit = true) :
    48 ≤ c.toNat ∧ c.toNat ≤ 57 := by
  unfold Char.isDigit at h
  simp at h
  exact h

theorem isPySpace_of_isDigit {c : Char} (h : c.isDigit = true) : isPySpace c = false := by
  obtain ⟨hlo, hhi⟩ := isDigit_toNat h
  have hs : c ≠ ' ' := fun he => by subst he; exact absurd h (by decide)
  have ht : c ≠ '\t' := fun he => by subst he; exact absurd h (by decide)
  have hn : c ≠ '\n' := fun he => by subst he; exact absurd h (by decide)
  have hr : c ≠ '\r' := fun he => by subst he; exact absurd h (by decide)
  have h11 : c.toNat ≠ 11 := by omega
  have h12 : c.toNat ≠ 12 := by omega
  simp [isPySpace, hs, ht, hn, hr, h11, h12]

theorem pyInt_digits3 {c1 c2 c3 : Char} (h1 : c1.isDigit = true)
    (h2 : c2.isDigit = true) (h3 : c3.isDigit = true) :
    pyInt (String.mk [c1, c2, c3]) = some ((escVal c1 c2 c3 : Nat) : Int) := by
  have hm : c1 ≠ '-' := fun he => by rw [he] at h1; exact absurd h1 (by decide)
  have hp : c1 ≠ '+' := fun he => by rw [he] at h1; exact absurd h1 (by decide)
  unfold pyInt
  have e : String.toList (String.mk [c1, c2, c3]) = [c1, c2, c3] := rfl
  rw [e]
  simp only [List.dropWhile, isPySpace_of_isDigit h1, isPySpace_of_isDigit h3,
    List.reverse_cons, List.reverse_nil, List.nil_append, List.cons_append,
    List.singleton_append]
  simp [hm, hp, digitsVal, h1, h2, h3, escVal, digitVal, List.isEmpty]

theorem pyChr_escVal {c1 c2 c3 : Char} (h1 : c1.isDigit = true)
    (h2 : c2.isDigit = true) (h3 : c3.isDigit = true) :
    pyChr ((escVal c1 c2 c3 : Nat) : Int) = some (Char.ofNat (escVal c1 c2 c3)) := by
  obtain ⟨_, b1⟩ := isDigit_toNat h1
  obtain ⟨_, b2⟩ := isDigit_toNat h2
  obtain ⟨_, b3⟩ := isDigit_toNat h3
  have hb : escVal c1 c2 c3 < 1114112 := by
    unfold escVal digitVal
    omega
  simp [pyChr, hb]

theorem findFromAux_append (c : Char) {a : List Char} (ha : c ∉ a) (r : List Char) :
    ∀ i, findFromAux c (a ++ c :: r) i = some (i + a.length) := by
  induction a with
  | nil => intro i; simp [findFromAux]
  | cons a₀ rest ih =>
      intro i
      have h₀ : ¬ a₀ = c := fun he => ha (he ▸ List.mem_cons_self a₀ rest)
      rw [List.cons_append]
      conv_lhs => rw [findFromAux]
      rw [if_neg h₀, ih (fun hm => ha (List.mem_cons_of_mem a₀ hm)) (i + 1)]
      congr 1
      simp
      omega

theorem findFrom_append (a r : List Char) (ha : '\\' ∉ a) :
    findFrom (a ++ '\\' :: r) '\\' 0 = some a.length := by
  unfold findFrom
  rw [List.drop_zero, findFromAux_append '\\' ha r 0]
  simp

theorem get?_append_pos (a l : List Char) (k : Nat) :
    (a ++ l).get? (a.length + k) = l.get? k := by
  rw [List.get?_append_right (by omega)]
  congr 1
  omega

theorem replaceFirst_append_left {a : List Char} (ha : '\\' ∉ a)
    (rest p rep : List Char) :
    replaceFirst (a ++ '\\' :: rest) ('\\' :: p) rep =
      a ++ replaceFirst ('\\' :: rest) ('\\' :: p) rep := by
  induction a with
  | nil => rfl
  | cons a₀ a1 ih =>
      have h₀ : ¬ a₀ = '\\' := fun he => ha (he ▸ List.mem_cons_self a₀ a1)
      have hnp : ¬ (('\\' :: p).isPrefixOf (a₀ :: (a1 ++ '\\' :: rest)) = true) := by
        simp [List.isPrefixOf]
        intro hbs
        exact absurd hbs.symm h₀
      rw [List.cons_append]
      conv_lhs => rw [replaceFirst]
      rw [if_neg hnp, ih (fun hm => ha (List.mem_cons_of_mem a₀ hm))]
      simp

theorem replaceFirst_at (c1 c2 c3 ch : Char) (b : List Char) :
    replaceFirst ('\\' :: c1 :: c2 :: c3 :: b) ['\\', c1, c2, c3] [ch] = ch :: b := by
  simp [replaceFirst, List.isPrefixOf]

/-- One iteration of the decoder on a well-formed leading escape: the
leftmost backslash group (the first three characters after the leftmost
backslash being digits) is replaced by its code point and the loop
continues on the modified string from position 0. -/
theorem stringifyBody_step (a b : List Char) (c1 c2 c3 : Char) (ha : '\\' ∉ a)
    (h1 : c1.isDigit = true) (h2 : c2.isDigit = true) (h3 : c3.isDigit = true) :
    stringifyBody (a ++ '\\' :: c1 :: c2 :: c3 :: b) 0 =
      Sum.inl (a ++ Char.ofNat (escVal c1 c2 c3) :: b, 0) := by
  have g1 : (a ++ '\\' :: c1 :: c2 :: c3 :: b).get? (a.length + 1) = some c1 := by
    rw [get?_append_pos]; rfl
  have g2 : (a ++ '\\' :: c1 :: c2 :: c3 :: b).get? (a.length + 2) = some c2 := by
    rw [get?_append_pos]; rfl
  have g3 : (a ++ '\\' :: c1 :: c2 :: c3 :: b).get? (a.length + 3) = some c3 := by
    rw [get?_append_pos]; rfl
  unfold stringifyBody
  rw [findFrom_append a _ ha]
  simp only []
  rw [g1]
  simp only []
  rw [g2]
  simp only []
  rw [g3]
  simp only []
  rw [pyInt_digits3 h1 h2 h3]
  split
  case _ heq => exact absurd heq (by simp)
  case _ n heq =>
    injection heq with hn
    subst hn
    split
    case _ heq2 => rw [pyChr_escVal h1 h2 h3] at heq2; exact absurd heq2 (by simp)
    case _ ch heq2 =>
      rw [pyChr_escVal h1 h2 h3] at heq2
      injection heq2 with hc
      subst hc
      rw [show ['\\', c1, c2, c3] = '\\' :: [c1, c2, c3] from rfl]
      rw [replaceFirst_append_left ha, replaceFirst_at]
      simp [h1, h2, h3]

theorem stringifyLoop_step (a b : List Char) (c1 c2 c3 : Char) (ha : '\\' ∉ a)
    (h1 : c1.isDigit = true) (h2 : c2.isDigit = true) (h3 : c3.isDigit = true) :
    stringifyLoop (a ++ '\\' :: c1 :: c2 :: c3 :: b) 0 =
      stringifyLoop (a ++ Char.ofNat (escVal c1 c2 c3) :: b) 0 := by
  rw [stringifyLoop, stringifyBody_step a b c1 c2 c3 ha h1 h2 h3]

/-! ### Claims -/

/-- C1: contrary to the claim, the READ handler is an unimplemented stub
(Operations.read is pass with a TODO comment): executing READ reads no
line from the program input, parses nothing, and assigns nothing — for
every state and every instruction it returns the state unchanged. -/
theorem C1_read_is_noop : ∀ (st : IState) (instr : Instr), read st instr = Except.ok st :=
  fun _ _ => rfl

/-- C2: contrary to the claim's "OperandType if and only if the types
differ", POPS into a variable already holding an int fails with exit 53
even though the popped value is also an int (the source compares the
popped type against the operand's type string "var", so the test
degenerates to "the destination is initialized"); POPS into a freshly
defined variable does store the popped value and pops the stack, as the
claim's round-trip part says. -/
theorem C2_pops_initialized_same_type_fails :
    pops { init_state with
             globalFrame := [("y", (PyVal.str "5", some "int"))]
             dataStack := Stack.empty.append (PyVal.str "7", some "int") }
         ⟨"POPS", [("GF@y", "var")], ["GF@y"]⟩
      = Except.error (Halt.exit 53) ∧
    (pops { init_state with
              globalFrame := [("y", (PyVal.none, Option.none))]
              dataStack := Stack.empty.append (PyVal.str "7", some "int") }
          ⟨"POPS", [("GF@y", "var")], ["GF@y"]⟩).map
        (fun s => (fLookup s.globalFrame "y", s.dataStack.stack))
      = Except.ok (some (PyVal.str "7", some "int"), []) :=
  ⟨rfl, rfl⟩

/-- C3 counterexample: an unrecognized opcode makes run_instruction fail
with exit code 32 (XmlStructure), not 52 (SemanticError) as claimed. -/
theorem C3_counterexample :
    run_instruction init_state ⟨"FOO", [], []⟩ = Except.error (Halt.exit 32) ∧
    Halt.exit 32 ≠ Halt.exit 52 :=
  ⟨rfl, by decide⟩

/-- C3 amended: for every fetched instruction other than LABEL (which
returns before any lookup), an opcode missing from the dispatch table,
or a declared arity differing from the instruction's argument count,
fails with XmlStructure (exit 32). -/
theorem C3_unknown_opcode_or_arity_exit32 :
    (∀ (st : IState) (instr : Instr), instr.opcode ≠ "LABEL" →
        dispatch_table instr.opcode = Option.none →
        run_instruction st instr = Except.error (Halt.exit 32)) ∧
    (∀ (st : IState) (instr : Instr) (p : Nat × Handler),
        dispatch_table instr.opcode = some p → p.1 ≠ instr.argList.length →
        run_instruction st instr = Except.error (Halt.exit 32)) ∧
    (∀ (st : IState) (instr : Instr), instr.opcode = "LABEL" →
        run_instruction st instr = Except.ok st) := by
  refine ⟨?_, ?_, ?_⟩
  · intro st instr hop hdt
    unfold run_instruction
    rw [if_neg hop, hdt]
    rfl
  · intro st instr p hdt har
    unfold run_instruction
    rcases p with ⟨arity, h⟩
    have har2 : arity ≠ instr.argList.length := har
    by_cases hop : instr.opcode = "LABEL"
    · rw [hop] at hdt
      rw [show dispatch_table "LABEL" = Option.none from rfl] at hdt
      exact absurd hdt (by simp)
    · rw [if_neg hop, hdt]
      simp only []
      rw [if_pos har2]
      rfl
  · intro st instr hop
    unfold run_instruction
    rw [if_pos hop]
    rfl

/-- C3 witness: the amended statement at concrete instructions — the
unknown opcode FOO with no arguments, MOVE with zero arguments instead
of two, and LABEL as a no-op. -/
theorem C3_witness :
    run_instruction init_state ⟨"FOO", [], []⟩ = Except.error (Halt.exit 32) ∧
    run_instruction init_state ⟨"MOVE", [], []⟩ = Except.error (Halt.exit 32) ∧
    run_instruction init_state ⟨"LABEL", [("L", "label")], ["L"]⟩ = Except.ok init_state :=
  ⟨C3_unknown_opcode_or_arity_exit32.1 init_state ⟨"FOO", [], []⟩ (by decide) rfl,
   C3_unknown_opcode_or_arity_exit32.2.1 init_state ⟨"MOVE", [], []⟩ (2, Handler.move) rfl
     (by decide),
   C3_unknown_opcode_or_arity_exit32.2.2 init_state ⟨"LABEL", [("L", "label")], ["L"]⟩ rfl⟩

/-- C4: contrary to the claim, NOT of the Bool literal false stores
false (the source computes not bool(text.lower().capitalize()), and
bool() of the non-empty string "False" is True, so the stored result is
False no matter which boolean the operand denotes). -/
theorem C4_not_stores_false :
    (not_ { init_state with globalFrame := [("d", (PyVal.none, Option.none))] }
        ⟨"NOT", [("GF@d", "var"), ("false", "bool")], ["GF@d"]⟩).map
      (fun s => fLookup s.globalFrame "d")
      = Except.ok (some (PyVal.bool false, some "bool")) ∧
    PyVal.bool false ≠ PyVal.bool true :=
  ⟨rfl, by decide⟩

/-- C5: WRITE of an undefined global variable fails with exit 54 as
claimed (write runs dependency_check), but JUMPIFEQ with the same
undefined variable operand does not: jumpifeq never calls
dependency_check, so get_frame_value raises an uncaught KeyError (a
Python crash), not exit 54. -/
theorem C5_undefined_variable :
    write init_state ⟨"WRITE", [("GF@nope", "var")], ["GF@nope"]⟩
      = Except.error (Halt.exit 54) ∧
    jumpifeq init_state
        ⟨"JUMPIFEQ", [("L", "label"), ("GF@nope", "var"), ("1", "int")], ["L", "GF@nope"]⟩
      = Except.error (Halt.exc PyExc.keyError) ∧
    Halt.exc PyExc.keyError ≠ Halt.exit 54 :=
  ⟨rfl, rfl, by decide⟩

/-- C7 counterexample: an int-typed literal whose text fails to parse
makes ADD fail with exit code 32 (XmlStructure, via the caught
ValueError), not 53 (OperandType) as claimed. -/
theorem C7_counterexample :
    math_ops { init_state with globalFrame := [("r", (PyVal.none, Option.none))] }
        ⟨"ADD", [("GF@r", "var"), ("abc", "int"), ("1", "int")], ["GF@r"]⟩ "+"
      = Except.error (Halt.exit 32) ∧
    Halt.exit 32 ≠ Halt.exit 53 :=
  ⟨rfl, by decide⟩

/-- C7 amended: an int-typed literal operand whose text fails to parse
under int() makes the arithmetic handlers and EXIT fail with
XmlStructure (exit 32): the ValueError raised by int() is caught and
mapped to error(32), not to OperandType.  The unparsable literal may be
the second or the third operand, and the other symbol operand may be a
variable or a literal; since int() converts the second operand first, a
bad second literal exits 32 whatever the third operand holds, while a
bad third literal exits 32 once the second operand converts. -/
theorem C7_bad_int_literal_exit32 :
    (∀ (st : IState) (instr : Instr) (op v t2 : String) (a3 : String × String)
        (val v3 : Tup),
        instr.argList = [(v, "var"), (t2, "int"), a3] →
        dependency_check st instr = Except.ok () →
        get_frame_value st v = Except.ok val →
        (val.2 = Option.none ∨ val.2 = some "int") →
        pyInt t2 = Option.none →
        resolveSym st a3 = Except.ok v3 →
        v3.2 = some "int" →
        (op = "+" ∨ op = "-" ∨ op = "*" ∨ op = "/") →
        math_ops st instr op = Except.error (Halt.exit 32)) ∧
    (∀ (st : IState) (instr : Instr) (op v t3 : String) (a2 : String × String)
        (val v2 : Tup) (n : Int),
        instr.argList = [(v, "var"), a2, (t3, "int")] →
        dependency_check st instr = Except.ok () →
        get_frame_value st v = Except.ok val →
        (val.2 = Option.none ∨ val.2 = some "int") →
        resolveSym st a2 = Except.ok v2 →
        v2.2 = some "int" →
        pyToIntExc v2.1 = Except.ok n →
        pyInt t3 = Option.none →
        (op = "+" ∨ op = "-" ∨ op = "*" ∨ op = "/") →
        math_ops st instr op = Except.error (Halt.exit 32)) ∧
    (∀ (st : IState) (instr : Instr) (t : String),
        instr.argList = [(t, "int")] →
        dependency_check st instr = Except.ok () →
        pyInt t = Option.none →
        exit_ st instr = Except.error (Halt.exit 32)) := by
  refine ⟨?_, ?_, ?_⟩
  · intro st instr op v t2 a3 val v3 hargs hdep hget hval hpy h3 hv3 hop
    unfold math_ops
    rw [hargs]
    have hcond : ¬ (val.2 ≠ Option.none ∧ val.2 ≠ some "int") := by
      rcases hval with h | h <;> simp [h]
    have h2r : resolveSym st (t2, "int") = Except.ok (PyVal.str t2, some "int") := by
      simp [resolveSym, liftArg, pure, Except.pure]
    rcases hop with rfl | rfl | rfl | rfl <;>
      simp [pyIdx, hdep, hget, Bind.bind, Except.bind, pure, Except.pure, hcond,
        h2r, h3, hv3, intOr32, pyToIntExc, hpy]
  · intro st instr op v t3 a2 val v2 n hargs hdep hget hval h2 hv2 hn hpy hop
    unfold math_ops
    rw [hargs]
    have hcond : ¬ (val.2 ≠ Option.none ∧ val.2 ≠ some "int") := by
      rcases hval with h | h <;> simp [h]
    have h3r : resolveSym st (t3, "int") = Except.ok (PyVal.str t3, some "int") := by
      simp [resolveSym, liftArg, pure, Except.pure]
    have hcv2 : intOr32 v2.1 = Except.ok n := by simp [intOr32, hn]; rfl
    have hcv3 : intOr32 (PyVal.str t3) = Except.error (Halt.exit 32) := by
      simp [intOr32, pyToIntExc, hpy]; rfl
    rcases hop with rfl | rfl | rfl | rfl <;>
      simp [pyIdx, hdep, hget, Bind.bind, Except.bind, pure, Except.pure, hcond,
        h2, hv2, h3r, hcv2, hcv3]
  · intro st instr t hargs hdep hpy
    unfold exit_
    rw [hargs]
    simp [pyIdx, hdep, Bind.bind, Except.bind, pure, Except.pure,
      resolveSym, liftArg, intOr32, pyToIntExc, hpy]

/-- C7 witness: the amended statement at concrete inputs — ADD with the
unparsable int literal abc as the second operand, ADD with it as the
third operand after a parsable int literal, ADD with it as the third
operand after a variable holding an int, and EXIT with the unparsable
int literal xyz, all exiting 32. -/
theorem C7_witness :
    math_ops { init_state with globalFrame := [("r", (PyVal.none, Option.none))] }
        ⟨"ADD", [("GF@r", "var"), ("abc", "int"), ("1", "int")], ["GF@r"]⟩ "+"
      = Except.error (Halt.exit 32) ∧
    math_ops { init_state with globalFrame := [("r", (PyVal.none, Option.none))] }
        ⟨"ADD", [("GF@r", "var"), ("1", "int"), ("abc", "int")], ["GF@r"]⟩ "+"
      = Except.error (Halt.exit 32) ∧
    math_ops { init_state with
          globalFrame := [("r", (PyVal.none, Option.none)), ("x", (PyVal.int 1, some "int"))] }
        ⟨"ADD", [("GF@r", "var"), ("GF@x", "var"), ("abc", "int")], ["GF@r", "GF@x"]⟩ "+"
      = Except.error (Halt.exit 32) ∧
    exit_ init_state ⟨"EXIT", [("xyz", "int")], []⟩ = Except.error (Halt.exit 32) :=
  ⟨C7_bad_int_literal_exit32.1
      { init_state with globalFrame := [("r", (PyVal.none, Option.none))] }
      ⟨"ADD", [("GF@r", "var"), ("abc", "int"), ("1", "int")], ["GF@r"]⟩
      "+" "GF@r" "abc" ("1", "int") (PyVal.none, Option.none)
      (PyVal.str "1", some "int") rfl rfl rfl (Or.inl rfl) rfl rfl rfl (Or.inl rfl),
   C7_bad_int_literal_exit32.2.1
      { init_state with globalFrame := [("r", (PyVal.none, Option.none))] }
      ⟨"ADD", [("GF@r", "var"), ("1", "int"), ("abc", "int")], ["GF@r"]⟩
      "+" "GF@r" "abc" ("1", "int") (PyVal.none, Option.none)
      (PyVal.str "1", some "int") 1 rfl rfl rfl (Or.inl rfl) rfl rfl rfl rfl (Or.inl rfl),
   C7_bad_int_literal_exit32.2.1
      { init_state with
        globalFrame := [("r", (PyVal.none, Option.none)), ("x", (PyVal.int 1, some "int"))] }
      ⟨"ADD", [("GF@r", "var"), ("GF@x", "var"), ("abc", "int")], ["GF@r", "GF@x"]⟩
      "+" "GF@r" "abc" ("GF@x", "var") (PyVal.none, Option.none)
      (PyVal.int 1, some "int") 1 rfl rfl rfl (Or.inl rfl) rfl rfl rfl rfl (Or.inl rfl),
   C7_bad_int_literal_exit32.2.2 init_state ⟨"EXIT", [("xyz", "int")], []⟩ "xyz" rfl rfl rfl⟩

/-- C8: the main loop pre-increments the instruction pointer, so CALL at
index i executes with the pointer at i + 1 and pushes exactly that index
onto the call stack before jumping to the label's target; RETURN with
the pushed index on top moves the pointer back to i + 1 (the instruction
immediately following the CALL) and pops; RETURN on an empty call stack
fails with MissingValue (exit 56); and the index pushed by an append is
exactly what get_top then returns. -/
theorem C8_call_return :
    (∀ (prog : List Instr) (st : IState) (L : String) (t : Nat) (instr : Instr),
        prog.get? st.index = some instr →
        instr.opcode = "CALL" →
        instr.argList = [(L, "label")] →
        lookupL st.labelList L = some t →
        step prog st = Except.ok (some { st with
          index := t
          callStack := st.callStack.append (st.index + 1) })) ∧
    (∀ (prog : List Instr) (st : IState) (instr : Instr) (j : Nat),
        prog.get? st.index = some instr →
        instr.opcode = "RETURN" →
        instr.argList = [] →
        st.callStack.get_top = some j →
        step prog st = Except.ok (some { st with
          index := j
          callStack := st.callStack.pop })) ∧
    (∀ (prog : List Instr) (st : IState) (instr : Instr),
        prog.get? st.index = some instr →
        instr.opcode = "RETURN" →
        instr.argList = [] →
        st.callStack.get_top = Option.none →
        step prog st = Except.error (Halt.exit 56)) ∧
    (∀ (cs : Stack Nat) (i : Nat), (cs.append i).get_top = some i) := by
  refine ⟨?_, ?_, ?_, fun cs i => rfl⟩
  · intro prog st L t instr hfetch hop hargs hlook
    unfold step
    rw [hfetch]
    simp only []
    unfold run_instruction
    rw [hop, hargs]
    rw [show dispatch_table "CALL" = some (1, Handler.call) from rfl]
    simp only [execHandler]
    unfold call
    rw [hargs]
    simp [pyIdx, Bind.bind, Except.bind, pure, Except.pure, hlook]
    rfl
  · intro prog st instr j hfetch hop hargs htop
    unfold step
    rw [hfetch]
    simp only []
    unfold run_instruction
    rw [hop, hargs]
    rw [if_neg (show ¬ ("RETURN" = "LABEL") by decide)]
    rw [show dispatch_table "RETURN" = some (0, Handler.return_) from rfl]
    simp only []
    rw [if_neg (show ¬ ((0 : Nat) ≠ ([] : List (String × String)).length) by decide)]
    simp only [execHandler]
    unfold return_
    rw [show ({ st with index := st.index + 1 } : IState).callStack = st.callStack from rfl,
      htop]
    rfl
  · intro prog st instr hfetch hop hargs htop
    unfold step
    rw [hfetch]
    simp only []
    unfold run_instruction
    rw [hop, hargs]
    rw [if_neg (show ¬ ("RETURN" = "LABEL") by decide)]
    rw [show dispatch_table "RETURN" = some (0, Handler.return_) from rfl]
    simp only []
    rw [if_neg (show ¬ ((0 : Nat) ≠ ([] : List (String × String)).length) by decide)]
    simp only [execHandler]
    unfold return_
    rw [show ({ st with index := st.index + 1 } : IState).callStack = st.callStack from rfl,
      htop]
    rfl

/-- C8 witness: a two-instruction program CALL L; RETURN with L mapped
to index 1: the CALL step pushes 1 and jumps, the RETURN step returns to
index 1 with the stack popped, and a RETURN with an empty call stack
exits 56. -/
theorem C8_witness :
    step [⟨"CALL", [("L", "label")], ["L"]⟩, ⟨"RETURN", [], []⟩]
        { init_state with labelList := [("L", 1)] }
      = Except.ok (some { { init_state with labelList := [("L", 1)] } with
          index := 1
          callStack := ({ init_state with labelList := [("L", 1)] } : IState).callStack.append
            (({ init_state with labelList := [("L", 1)] } : IState).index + 1) }) ∧
    step [⟨"CALL", [("L", "label")], ["L"]⟩, ⟨"RETURN", [], []⟩]
        { init_state with
          labelList := [("L", 1)]
          index := 1
          callStack := Stack.empty.append 1 }
      = Except.ok (some { { init_state with
            labelList := [("L", 1)]
            index := 1
            callStack := Stack.empty.append 1 } with
          index := 1
          callStack := (Stack.empty.append 1).pop }) ∧
    step [⟨"CALL", [("L", "label")], ["L"]⟩, ⟨"RETURN", [], []⟩]
        { init_state with labelList := [("L", 1)], index := 1 }
      = Except.error (Halt.exit 56) ∧
    (Stack.empty.append 7).get_top = some 7 :=
  ⟨C8_call_return.1 _ _ "L" 1 ⟨"CALL", [("L", "label")], ["L"]⟩ rfl rfl rfl rfl,
   C8_call_return.2.1 _ _ ⟨"RETURN", [], []⟩ 1 rfl rfl rfl rfl,
   C8_call_return.2.2.1 _ _ ⟨"RETURN", [], []⟩ rfl rfl rfl rfl,
   C8_call_return.2.2.2 Stack.empty 7⟩

/-- C10: when the comparison of JUMPIFEQ or JUMPIFNEQ makes the branch
fall through, the target label is never looked up — the handler returns
with the state unchanged (execution continues at the next instruction)
whatever the label operand names; only when the jump is taken does jump
consult the label list, and an unknown label then fails with
SemanticError (exit 52). -/
theorem C10_label_checked_only_when_taken :
    (∀ (st : IState) (instr : Instr) (a1 a2 a3 : String × String) (v2 v3 : Tup),
        instr.argList = [a1, a2, a3] →
        resolveSym st a2 = Except.ok v2 →
        resolveSym st a3 = Except.ok v3 →
        j_eq v2 v3 = Except.ok false →
        jumpifeq st instr = Except.ok st) ∧
    (∀ (st : IState) (instr : Instr) (L : String) (a2 a3 : String × String) (v2 v3 : Tup),
        instr.argList = [(L, "label"), a2, a3] →
        resolveSym st a2 = Except.ok v2 →
        resolveSym st a3 = Except.ok v3 →
        j_eq v2 v3 = Except.ok true →
        lookupL st.labelList L = Option.none →
        jumpifeq st instr = Except.error (Halt.exit 52)) ∧
    (∀ (st : IState) (instr : Instr) (a1 a2 a3 : String × String) (v2 v3 : Tup),
        instr.argList = [a1, a2, a3] →
        resolveSym st a2 = Except.ok v2 →
        resolveSym st a3 = Except.ok v3 →
        j_eq v2 v3 = Except.ok true →
        jumpifneq st instr = Except.ok st) ∧
    (∀ (st : IState) (instr : Instr) (L : String) (a2 a3 : String × String) (v2 v3 : Tup),
        instr.argList = [(L, "label"), a2, a3] →
        resolveSym st a2 = Except.ok v2 →
        resolveSym st a3 = Except.ok v3 →
        j_eq v2 v3 = Except.ok false →
        lookupL st.labelList L = Option.none →
        jumpifneq st instr = Except.error (Halt.exit 52)) := by
  refine ⟨?_, ?_, ?_, ?_⟩
  · intro st instr a1 a2 a3 v2 v3 hargs h2 h3 hj
    unfold jumpifeq
    rw [hargs]
    simp [pyIdx, h2, h3, hj, Bind.bind, Except.bind, pure, Except.pure]
  · intro st instr L a2 a3 v2 v3 hargs h2 h3 hj hlook
    unfold jumpifeq jump
    rw [hargs]
    simp [pyIdx, h2, h3, hj, hlook, Bind.bind, Except.bind, pure, Except.pure]
    rfl
  · intro st instr a1 a2 a3 v2 v3 hargs h2 h3 hj
    unfold jumpifneq
    rw [hargs]
    simp [pyIdx, h2, h3, hj, Bind.bind, Except.bind, pure, Except.pure]
  · intro st instr L a2 a3 v2 v3 hargs h2 h3 hj hlook
    unfold jumpifneq jump
    rw [hargs]
    simp [pyIdx, h2, h3, hj, hlook, Bind.bind, Except.bind, pure, Except.pure]
    rfl

/-- C10 witness: with an empty label list (label L unknown), JUMPIFEQ on
unequal ints falls through without error, JUMPIFEQ on equal ints exits
52, JUMPIFNEQ on equal ints falls through, and JUMPIFNEQ on unequal
ints exits 52. -/
theorem C10_witness :
    jumpifeq init_state ⟨"JUMPIFEQ", [("L", "label"), ("1", "int"), ("2", "int")], []⟩
      = Except.ok init_state ∧
    jumpifeq init_state ⟨"JUMPIFEQ", [("L", "label"), ("1", "int"), ("1", "int")], []⟩
      = Except.error (Halt.exit 52) ∧
    jumpifneq init_state ⟨"JUMPIFNEQ", [("L", "label"), ("1", "int"), ("1", "int")], []⟩
      = Except.ok init_state ∧
    jumpifneq init_state ⟨"JUMPIFNEQ", [("L", "label"), ("1", "int"), ("2", "int")], []⟩
      = Except.error (Halt.exit 52) :=
  ⟨C10_label_checked_only_when_taken.1 init_state _ ("L", "label") ("1", "int") ("2", "int")
      (PyVal.str "1", some "int") (PyVal.str "2", some "int") rfl rfl rfl rfl,
   C10_label_checked_only_when_taken.2.1 init_state _ "L" ("1", "int") ("1", "int")
      (PyVal.str "1", some "int") (PyVal.str "1", some "int") rfl rfl rfl rfl rfl,
   C10_label_checked_only_when_taken.2.2.1 init_state _ ("L", "label") ("1", "int") ("1", "int")
      (PyVal.str "1", some "int") (PyVal.str "1", some "int") rfl rfl rfl rfl,
   C10_label_checked_only_when_taken.2.2.2 init_state _ "L" ("1", "int") ("2", "int")
      (PyVal.str "1", some "int") (PyVal.str "2", some "int") rfl rfl rfl rfl rfl⟩

/-- C6 counterexample: the decoder is not a single left-to-right pass
over the original text.  On the input backslash-092048 the claim's
single pass yields backslash followed by 048 (the decoded code point 92
is a backslash, and 048 was not an escape of the original string), but
stringify re-examines the decoded backslash against the following
characters and produces the single character 0. -/
theorem C6_counterexample :
    stringify ['\\', '0', '9', '2', '0', '4', '8'] = Except.ok ['0'] ∧
    decode_single_pass ['\\', '0', '9', '2', '0', '4', '8'] = ['\\', '0', '4', '8'] ∧
    (['0'] : List Char) ≠ ['\\', '0', '4', '8'] := by
  refine ⟨?_, by decide, by decide⟩
  have e1 := stringifyLoop_step [] ['0', '4', '8'] '0' '9' '2'
    (by decide) (by decide) (by decide) (by decide)
  have e2 := stringifyLoop_step [] [] '0' '4' '8'
    (by decide) (by decide) (by decide) (by decide)
  have e3 := stringifyLoop_no_backslash [Char.ofNat (escVal '0' '4' '8')] 0 (by decide)
  exact e1.trans (e2.trans e3)

/-- C6 amended: the decoder repeatedly replaces the leftmost
backslash-plus-three-digits group of the current string by its code
point and rescans the modified string (so a decoded code point 92 is
itself reprocessed against the characters after it); on a string
containing no backslash it returns the string unchanged, hence it is
idempotent there. -/
theorem C6_decoder_iterates_leftmost :
    (∀ s : List Char, '\\' ∉ s → stringify s = Except.ok s) ∧
    (∀ (a b : List Char) (c1 c2 c3 : Char), '\\' ∉ a →
        c1.isDigit = true → c2.isDigit = true → c3.isDigit = true →
        stringify (a ++ '\\' :: c1 :: c2 :: c3 :: b) =
          stringify (a ++ Char.ofNat (escVal c1 c2 c3) :: b)) :=
  ⟨fun s h => stringifyLoop_no_backslash s 0 h,
   fun a b c1 c2 c3 ha h1 h2 h3 => stringifyLoop_step a b c1 c2 c3 ha h1 h2 h3⟩

/-- C6 witness: the amended statement at concrete strings — ab has no
backslash and decodes to itself, and x-backslash-104 decodes one
leftmost escape to xh (104 is h). -/
theorem C6_witness :
    ('\\' ∉ (['a', 'b'] : List Char)) ∧
    stringify ['a', 'b'] = Except.ok ['a', 'b'] ∧
    Char.isDigit '1' = true ∧
    stringify ['x', '\\', '1', '0', '4'] = stringify ['x', 'h'] :=
  ⟨by decide,
   C6_decoder_iterates_leftmost.1 ['a', 'b'] (by decide),
   by decide,
   C6_decoder_iterates_leftmost.2 ['x'] [] '1' '0' '4'
     (by decide) (by decide) (by decide) (by decide)⟩

theorem initLoop_total {α : Type} :
    ∀ (xs : List (Option String × α)) (dict : List (Int × α)),
      (∃ r, initLoop dict xs = Except.ok r) ∨ initLoop dict xs = Except.error (Halt.exit 32) := by
  intro xs
  induction xs with
  | nil => intro dict; exact Or.inl ⟨dict, rfl⟩
  | cons x rest ih =>
      intro dict
      rcases x with ⟨o, a⟩
      unfold initLoop
      cases o with
      | none => exact Or.inr rfl
      | some s =>
          simp only []
          cases pyInt s with
          | none => exact Or.inr rfl
          | some n =>
              simp only []
              by_cases hc : (dict.map Prod.fst).contains n = true
              · rw [if_pos hc]; exact Or.inr rfl
              · rw [if_neg hc]
                by_cases hle : n ≤ 0
                · rw [if_pos hle]; exact Or.inr rfl
                · rw [if_neg hle]; exact ih (dict ++ [(n, a)])

theorem initLoop_ok :
    ∀ (xs : List (Option String × Nat)) (dict : List (Int × Nat)) (r : List (Int × Nat)),
      initLoop dict xs = Except.ok r →
      (∀ x ∈ xs, ∃ n, orderOf x = some n ∧ 0 < n ∧ (dict.map Prod.fst).contains n = false) ∧
        (xs.map orderOf).Nodup := by
  intro xs
  induction xs with
  | nil => intro dict r _; exact ⟨by simp, by simp⟩
  | cons x rest ih =>
      intro dict r h
      rcases x with ⟨o, a⟩
      unfold initLoop at h
      cases o with
      | none => simp at h
      | some s =>
          simp only [] at h
          cases hps : pyInt s with
          | none => rw [hps] at h; simp at h
          | some n =>
              rw [hps] at h
              simp only [] at h
              by_cases hc : (dict.map Prod.fst).contains n = true
              · rw [if_pos hc] at h; simp at h
              · rw [if_neg hc] at h
                by_cases hle : n ≤ 0
                · rw [if_pos hle] at h; simp at h
                · rw [if_neg hle] at h
                  obtain ⟨hrest, hnd⟩ := ih (dict ++ [(n, a)]) r h
                  have hkey : ∀ y ∈ rest, orderOf y ≠ some n := by
                    intro y hy he
                    obtain ⟨m, hm, _, hcm⟩ := hrest y hy
                    rw [hm] at he
                    injection he with hmn
                    subst hmn
                    rw [List.map_append] at hcm
                    have hmm :
                        ((List.map Prod.fst dict ++ List.map Prod.fst [(m, a)]).contains m)
                          = true := by
                      refine List.elem_iff.mpr ?_
                      exact List.mem_append_right _ (by simp)
                    rw [hcm] at hmm
                    exact Bool.noConfusion hmm
                  refine ⟨?_, ?_⟩
                  · intro y hy
                    rcases List.mem_cons.mp hy with rfl | hy2
                    · refine ⟨n, ?_, by omega, by simpa using hc⟩
                      simp [orderOf, hps]
                    · obtain ⟨m, hm, hpos, hcm⟩ := hrest y hy2
                      refine ⟨m, hm, hpos, ?_⟩
                      rw [List.map_append] at hcm
                      rcases hx : (dict.map Prod.fst).contains m with _ | _
                      · rfl
                      · exfalso
                        have hmem : m ∈ dict.map Prod.fst := List.elem_iff.mp hx
                        have hmm :
                            ((List.map Prod.fst dict ++ List.map Prod.fst [(n, a)]).contains m)
                              = true :=
                          List.elem_iff.mpr (List.mem_append_left _ hmem)
                        rw [hcm] at hmm
                        exact Bool.noConfusion hmm
                  · rw [List.map_cons]
                    refine List.Nodup.cons ?_ hnd
                    intro hmem
                    rw [List.mem_map] at hmem
                    obtain ⟨y, hy, hye⟩ := hmem
                    exact hkey y hy (hye.trans (by simp [orderOf, hps]))

theorem initLoop_keys_nodup :
    ∀ (xs : List (Option String × Nat)) (dict : List (Int × Nat)) (r : List (Int × Nat)),
      (dict.map Prod.fst).Nodup → initLoop dict xs = Except.ok r →
      (r.map Prod.fst).Nodup := by
  intro xs
  induction xs with
  | nil =>
      intro dict r hnd h
      simp only [initLoop] at h
      injection h with he
      subst he
      exact hnd
  | cons x rest ih =>
      intro dict r hnd h
      rcases x with ⟨o, a⟩
      unfold initLoop at h
      cases o with
      | none => simp at h
      | some s =>
          simp only [] at h
          cases hps : pyInt s with
          | none => rw [hps] at h; simp at h
          | some n =>
              rw [hps] at h
              simp only [] at h
              by_cases hc : (dict.map Prod.fst).contains n = true
              · rw [if_pos hc] at h; simp at h
              · rw [if_neg hc] at h
                by_cases hle : n ≤ 0
                · rw [if_pos hle] at h; simp at h
                · rw [if_neg hle] at h
                  refine ih (dict ++ [(n, a)]) r ?_ h
                  rw [List.map_append]
                  refine List.Nodup.append hnd (by simp) ?_
                  intro m hm1 hm2
                  simp at hm2
                  subst hm2
                  exact absurd (List.elem_iff.mpr hm1) (by simpa using hc)

theorem insertPair_perm {α : Type} (p : Int × α) :
    ∀ l : List (Int × α), (insertPair p l).Perm (p :: l) := by
  intro l
  induction l with
  | nil => exact List.Perm.refl _
  | cons q rest ih =>
      unfold insertPair
      by_cases hpq : p.1 ≤ q.1
      · rw [if_pos hpq]
      · rw [if_neg hpq]
        exact (ih.cons q).trans (List.Perm.swap p q rest)

theorem sortPairs_perm {α : Type} : ∀ l : List (Int × α), (sortPairs l).Perm l := by
  intro l
  induction l with
  | nil => exact List.Perm.refl _
  | cons p rest ih =>
      unfold sortPairs
      exact (insertPair_perm p (sortPairs rest)).trans (ih.cons p)

theorem insertPair_sorted {α : Type} (p : Int × α) :
    ∀ l : List (Int × α), l.Pairwise (fun a b => a.1 ≤ b.1) →
      (insertPair p l).Pairwise (fun a b => a.1 ≤ b.1) := by
  intro l
  induction l with
  | nil => intro _; simp [insertPair]
  | cons q rest ih =>
      intro h
      rw [List.pairwise_cons] at h
      obtain ⟨hq, hrest⟩ := h
      unfold insertPair
      by_cases hpq : p.1 ≤ q.1
      · rw [if_pos hpq]
        refine List.Pairwise.cons ?_ (List.Pairwise.cons hq hrest)
        intro b hb
        rcases List.mem_cons.mp hb with rfl | hb2
        · exact hpq
        · exact le_trans hpq (hq b hb2)
      · rw [if_neg hpq]
        refine List.Pairwise.cons ?_ (ih hrest)
        intro b hb
        rcases List.mem_cons.mp ((insertPair_perm p rest).mem_iff.mp hb) with rfl | hb2
        · exact le_of_not_le hpq
        · exact hq b hb2

theorem sortPairs_sorted {α : Type} :
    ∀ l : List (Int × α), (sortPairs l).Pairwise (fun a b => a.1 ≤ b.1) := by
  intro l
  induction l with
  | nil => simp [sortPairs]
  | cons p rest ih => exact insertPair_sorted p (sortPairs rest) ih

/-- C9: every successfully loaded instruction sequence is strictly
ascending in the parsed order attribute (hence has no duplicates), and
loading fails with XmlStructure (exit 32) whenever any order attribute
is missing or non-integer, any parses non-positive, or two parse to the
same integer. -/
theorem C9_orders_strictly_ascending :
    (∀ (xs : List (Option String × Nat)) (r : List (Int × Nat)),
        initializeFlow xs = Except.ok r →
        r.Pairwise (fun p q => p.1 < q.1)) ∧
    (∀ xs : List (Option String × Nat),
        ((∃ x ∈ xs, orderOf x = Option.none) ∨
         (∃ x ∈ xs, ∃ n, orderOf x = some n ∧ n ≤ 0) ∨
         ¬ (xs.map orderOf).Nodup) →
        initializeFlow xs = Except.error (Halt.exit 32)) := by
  constructor
  · intro xs r h
    unfold initializeFlow at h
    cases hl : initLoop ([] : List (Int × Nat)) xs with
    | error e => rw [hl] at h; simp [Except.map] at h
    | ok d =>
        rw [hl] at h
        simp [Except.map] at h
        subst h
        have hkeys : (d.map Prod.fst).Nodup := initLoop_keys_nodup xs [] d (by simp) hl
        have hsorted := sortPairs_sorted d
        have hperm := sortPairs_perm d
        have hnd2 : ((sortPairs d).map Prod.fst).Nodup :=
          ((hperm.map Prod.fst).nodup_iff).mpr hkeys
        have hne : (sortPairs d).Pairwise (fun p q => p.1 ≠ q.1) :=
          List.pairwise_map.mp hnd2
        exact List.Pairwise.imp (fun hb => lt_of_le_of_ne hb.1 hb.2) (hsorted.and hne)
  · intro xs hbad
    rcases initLoop_total xs ([] : List (Int × Nat)) with ⟨r, hok⟩ | herr
    · exfalso
      obtain ⟨hall, hnd⟩ := initLoop_ok xs [] r hok
      rcases hbad with ⟨x, hx, hnone⟩ | ⟨x, hx, n, hsome, hle⟩ | hdup
      · obtain ⟨m, hm, _, _⟩ := hall x hx
        rw [hnone] at hm
        exact Option.noConfusion hm
      · obtain ⟨m, hm, hpos, _⟩ := hall x hx
        rw [hsome] at hm
        injection hm with he
        subst he
        omega
      · exact hdup hnd
    · unfold initializeFlow
      rw [herr]
      rfl

/-- C9 witness: the document order attributes 2 then 1 load into the
strictly ascending sequence of orders 1 then 2, and a duplicated order
attribute 1 makes loading exit 32. -/
theorem C9_witness :
    initializeFlow [(some "2", (0 : Nat)), (some "1", 1)] = Except.ok [(1, 1), (2, 0)] ∧
    List.Pairwise (fun p q => p.1 < q.1) [((1 : Int), (1 : Nat)), (2, 0)] ∧
    initializeFlow [(some "1", (0 : Nat)), (some "1", 1)] = Except.error (Halt.exit 32) :=
  ⟨rfl,
   C9_orders_strictly_ascending.1 [(some "2", 0), (some "1", 1)] [(1, 1), (2, 0)] rfl,
   C9_orders_strictly_ascending.2 [(some "1", 0), (some "1", 1)]
     (Or.inr (Or.inr (by decide)))⟩

end Interp
